import Mathlib

/-!
Shallow embedding of the core pipeline of the GitHub profile analyzer
(`githubService` fetch wrapper, contribution-streak computation, profile
aggregation, `geminiService` assessment request, and the `App` submit
handler), together with theorems settling the frozen claims about it.

Conventions of the embedding:
* JavaScript exceptions become `Except JsError`; the source only ever
  constructs `new Error(message)`, so `JsError` has a single constructor
  carrying the message, and `JsError.name` is the constant class name
  `"Error"` (mirroring `Error.prototype.name`).
* Network effects are made explicit: each fetch-like function takes the
  outcome of its network call (status/parsed body) as an argument and
  performs the source's control flow on it.
* Contribution counts are event counts, embedded as `Nat`; dates at day
  granularity are embedded as `Int` day numbers (the source compares ISO
  `YYYY-MM-DD` strings through `Date.getTime`, a monotone injection into
  numbers for day-granularity dates).
* `Array.prototype.sort` with comparator `dateA - dateB` is a stable sort
  ascending by date; it is embedded as `List.insertionSort` on the date
  order, which is likewise stable.
-/

namespace GitrepoAnalyzer

/-- JS exception value: every `throw` in the source is `new Error(message)`. -/
inductive JsError where
  | error (message : String)
deriving Repr, DecidableEq

/-- Class name of a thrown value, as in `Error.prototype.name`: every error the
source throws belongs to the single class `Error`. -/
def JsError.name : JsError → String
  | .error _ => "Error"

/-- Message carried by a thrown value. -/
def JsError.message : JsError → String
  | .error m => m

/-- JSON values, as produced by `JSON.parse`. -/
inductive Json where
  | null
  | bool (b : Bool)
  | num (n : Int)
  | str (s : String)
  | arr (elems : List Json)
  | obj (fields : List (String × Json))

/-- Field presence test on a JSON value: true when the value is an object with
a binding for the key. -/
def Json.hasField (j : Json) (key : String) : Bool :=
  match j with
  | .obj fields => fields.any (fun f => f.1 == key)
  | _ => false

/-! ### HTTP fetch wrapper (`fetchGitHub` in `githubService`) -/

/-- Response of a `fetch` call, as far as the wrapper inspects it. -/
structure HttpResponse where
  status : Nat
  statusText : String
deriving Repr, DecidableEq

/-- Success flag of a fetch response: per the fetch standard, `response.ok`
holds exactly when the status is in the 2xx range. -/
def HttpResponse.ok (r : HttpResponse) : Bool :=
  200 ≤ r.status && r.status ≤ 299

/-- Embedding of `fetchGitHub`: given the response of the network call and its
parsed JSON body, either throw a classified error (for non-2xx status) or
return the body. Status 403 and 429 are checked first, then 404, then the
catch-all carrying the status text. -/
def fetchGitHub (r : HttpResponse) (body : Json) : Except JsError Json :=
  if r.ok then
    .ok body
  else if r.status == 403 || r.status == 429 then
    .error (.error "GitHub API rate limit exceeded. Please try again later or provide a token.")
  else if r.status == 404 then
    .error (.error "User or resource not found.")
  else
    .error (.error ("GitHub API Error: " ++ r.statusText))

/-! ### Contribution statistics (`fetchContributionStats` in `githubService`) -/

/-- One entry of the daily contribution series of the statistics API:
a date (day number) and the event count for that day. -/
structure ContributionDay where
  date : Int
  count : Nat
deriving Repr, DecidableEq

/-- Payload of the statistics API: a per-year total map (`total`, keyed by year
string) and the daily contribution series (`contributions`). -/
structure ContribPayload where
  total : List (String × Nat)
  contributions : List ContributionDay
deriving Repr, DecidableEq

/-- Result record of the streak computation. -/
structure ContributionStats where
  totalContributions : Nat
  longestStreak : Nat
  currentStreak : Nat
deriving Repr, DecidableEq

/-- Date order used by the comparator `(a, b) => dateA - dateB`. -/
def dateLe (a b : ContributionDay) : Prop :=
  a.date ≤ b.date

instance : DecidableRel dateLe := fun a b =>
  inferInstanceAs (Decidable (a.date ≤ b.date))

instance : IsTotal ContributionDay dateLe :=
  ⟨fun a b => Int.le_total a.date b.date⟩

instance : IsTrans ContributionDay dateLe :=
  ⟨fun _ _ _ hab hbc => le_trans hab hbc⟩

/-- Embedding of `contributions.sort((a, b) => dateA - dateB)`: a stable sort
ascending by date. -/
def sortByDate (l : List ContributionDay) : List ContributionDay :=
  List.insertionSort dateLe l

/-- One step of the forward longest-streak scan: the pair holds
`(longestStreak, tempStreak)`; a positive day increments the temp streak, a
zero day folds the temp streak into the maximum and resets it. -/
def longestStep (p : Nat × Nat) (day : ContributionDay) : Nat × Nat :=
  if day.count > 0 then (p.1, p.2 + 1) else (max p.1 p.2, 0)

/-- Forward scan of the `forEach` loop, from initial `(0, 0)`. -/
def longestScan (l : List ContributionDay) : Nat × Nat :=
  l.foldl longestStep (0, 0)

/-- Longest streak: the scan followed by the trailing
`longestStreak = Math.max(longestStreak, tempStreak)`. -/
def longestStreakOf (l : List ContributionDay) : Nat :=
  max (longestScan l).1 (longestScan l).2

/-- Backward current-streak loop, expressed on the reversed series (most
recent entry first): a positive day increments the streak and continues; a
zero day dated `today` is skipped; any other zero day breaks the loop. -/
def currentStreakAux (today : Int) : List ContributionDay → Nat
  | [] => 0
  | day :: rest =>
    if day.count > 0 then currentStreakAux today rest + 1
    else if day.date = today then currentStreakAux today rest
    else 0

/-- Pure core of `fetchContributionStats` on a successfully parsed payload:
sum the per-year total map, sort the series by date, run the forward
longest-streak scan and the backward current-streak scan. -/
def computeStats (today : Int) (payload : ContribPayload) : ContributionStats :=
  let total := (payload.total.map Prod.snd).foldl (· + ·) 0
  let sorted := sortByDate payload.contributions
  { totalContributions := total
    longestStreak := longestStreakOf sorted
    currentStreak := currentStreakAux today sorted.reverse }

/-- Outcome of the statistics fetch, as far as the source inspects it:
the fetch itself may throw, or deliver a response with a success flag and a
body whose JSON decoding may fail. -/
inductive StatsFetchOutcome where
  | fetchFailure
  | response (ok : Bool) (body : Except String ContribPayload)

/-- Embedding of `fetchContributionStats`: a thrown fetch, a non-2xx response,
or a body that fails to decode all fall to the zero record (the `!response.ok`
early return and the surrounding `try`/`catch`); a decoded payload goes
through the streak computation. -/
def fetchContributionStats (today : Int) (o : StatsFetchOutcome) : ContributionStats :=
  match o with
  | .fetchFailure => ⟨0, 0, 0⟩
  | .response false _ => ⟨0, 0, 0⟩
  | .response true (.error _) => ⟨0, 0, 0⟩
  | .response true (.ok payload) => computeStats today payload

/-! ### README fetch and profile aggregation (`githubService`) -/

/-- Body of the README endpoint: a content string and its encoding tag. -/
structure ReadmeData where
  content : String
  encoding : String
deriving Repr, DecidableEq

/-- Embedding of `data.content.replace(/\n/g, '')`. -/
def stripNewlines (s : String) : String :=
  ⟨s.data.filter (fun c => c ≠ '\n')⟩

/-- Embedding of `.slice(0, 2000)` on a decoded string. -/
def slice2000 (s : String) : String :=
  ⟨s.data.take 2000⟩

/-- Embedding of `getRepoReadme`, parameterised by the base64 decoder `atob`
(a platform builtin) and the outcome of the wrapped fetch: any thrown error is
caught and becomes `none`; a body tagged `base64` with nonempty content is
decoded after newline stripping and truncated to 2000 characters; any other
body yields `none`. -/
def getRepoReadme (atob : String → String) (outcome : Except JsError ReadmeData) :
    Option String :=
  match outcome with
  | .error _ => none
  | .ok d =>
    if d.encoding == "base64" && d.content != "" then
      some (slice2000 (atob (stripNewlines d.content)))
    else
      none

/-- Repository record, reduced to the fields the aggregation step writes or
the claims mention; the remaining metadata fields ride along unchanged in the
source and are elided here. `readmeContent` distinguishes an absent field
(`none`, the field was never attached) from an attached `null`
(`some none`). -/
structure Repo where
  name : String
  readmeContent : Option (Option String) := none
deriving Repr, DecidableEq

/-- Embedding of `repos.map(async (repo, index) => ...)`: the first three
repositories (indices 0, 1, 2 counted from `start`) get `readmeContent`
attached from their README result; later repositories are passed through
untouched. -/
def attachReadmes (readmeFor : Nat → Option String) : Nat → List Repo → List Repo
  | _, [] => []
  | i, repo :: rest =>
    (if i < 3 then { repo with readmeContent := some (readmeFor i) } else repo)
      :: attachReadmes readmeFor (i + 1) rest

/-- Profile record, reduced to the identity the aggregation threads through. -/
structure User where
  login : String
deriving Repr, DecidableEq

/-- Embedding of `fetchFullProfileData` after its three fetches resolved: the
user, the repositories with READMEs attached for the first three (each README
fetch outcome given per index), and the contribution stats. Note the function
is total: it performs no emptiness check on `repos`. -/
def fetchFullProfileData (user : User) (repos : List Repo) (stats : ContributionStats)
    (atob : String → String) (readmeOutcome : Nat → Except JsError ReadmeData) :
    User × List Repo × ContributionStats :=
  (user, attachReadmes (fun i => getRepoReadme atob (readmeOutcome i)) 0 repos, stats)

/-! ### Assessment request (`analyzeProfile` in `geminiService`) -/

/-- Embedding of the result handling of `analyzeProfile`: a missing API key
throws, a missing response text throws, a `JSON.parse` failure (the parse
outcome is passed in, `JSON.parse` being a platform builtin) propagates as a
thrown error, and a successful parse is returned as the assessment with no
structural validation (`JSON.parse(text) as ProfileAnalysis`). -/
def analyzeProfile (apiKeyPresent : Bool) (responseText : Option String)
    (parsed : Except String Json) : Except JsError Json :=
  if !apiKeyPresent then
    .error (.error "Gemini API Key is missing")
  else
    match responseText with
    | none => .error (.error "No response from AI service")
    | some _ =>
      match parsed with
      | .error e => .error (.error e)
      | .ok j => .ok j

/-! ### Submit handler (`handleAnalyze` in `App`) -/

/-- Embedding of the body of `handleAnalyze` after username extraction: on a
failed aggregate fetch the error propagates; on success an empty repository
list throws before the assessment step; otherwise the assessment step runs on
the fetched user and repositories. -/
def handleAnalyze (fetched : Except JsError (User × List Repo × ContributionStats))
    (assess : User → List Repo → Except JsError Json) : Except JsError Json :=
  match fetched with
  | .error e => .error e
  | .ok (user, repos, _stats) =>
    if repos.length = 0 then
      .error (.error "This user has no public repositories to analyze.")
    else
      assess user repos

/-! ### Claims about the assessment requester and the fetch wrapper -/

/-- C1 (counterexample): a model response whose text parses as a JSON object
omitting the `repoAnalyses` field is returned by `analyzeProfile` as a
successful assessment, not rejected: the source casts the parse result with no
structural validation. -/
theorem C1_counterexample :
    analyzeProfile true (some "\x7b\x22profileScore\x22:50\x7d")
        (.ok (.obj [("profileScore", .num 50)]))
      = .ok (.obj [("profileScore", .num 50)]) ∧
    (Json.obj [("profileScore", .num 50)]).hasField "repoAnalyses" = false :=
  ⟨rfl, rfl⟩

/-- C1 (amended): with the API key present, `analyzeProfile` fails when the
response has no text or when the text fails to parse as JSON; any text that
parses as JSON is returned as the assessment unvalidated, whatever fields the
parsed object has or lacks (structural shape is requested from the model
service via the response schema, not checked by the client). -/
theorem C1_amended_unvalidated_parse (text : String) (e : String) (j : Json) :
    analyzeProfile true none (.ok j) = .error (.error "No response from AI service") ∧
    analyzeProfile true (some text) (.error e) = .error (.error e) ∧
    analyzeProfile true (some text) (.ok j) = .ok j :=
  ⟨rfl, rfl, rfl⟩

/-- C2 (counterexample): the wrapper's 404 failure and 403 failure carry the
same error kind (the single JS `Error` class) and differ only in message text,
so the two failures are not distinguishable by error kind. -/
theorem C2_counterexample :
    fetchGitHub ⟨404, "Not Found"⟩ .null
      = .error (.error "User or resource not found.") ∧
    fetchGitHub ⟨403, "Forbidden"⟩ .null
      = .error (.error "GitHub API rate limit exceeded. Please try again later or provide a token.") ∧
    (JsError.error "User or resource not found.").name
      = (JsError.error "GitHub API rate limit exceeded. Please try again later or provide a token.").name ∧
    (JsError.error "User or resource not found.").message
      ≠ (JsError.error "GitHub API rate limit exceeded. Please try again later or provide a token.").message := by
  refine ⟨rfl, rfl, rfl, ?_⟩
  decide

/-- C2 (amended): status 404 fails with the not-found message, status 403 or
429 fails with the rate-limit message, and any other non-2xx status fails with
a message carrying the status text; every failure is of the one generic error
kind, so the cases are distinguishable only by message text. -/
theorem C2_amended_status_classification (r : HttpResponse) (body : Json) :
    (r.status = 404 →
      fetchGitHub r body = .error (.error "User or resource not found.")) ∧
    (r.status = 403 ∨ r.status = 429 →
      fetchGitHub r body
        = .error (.error "GitHub API rate limit exceeded. Please try again later or provide a token.")) ∧
    (r.ok = false → r.status ≠ 403 → r.status ≠ 429 → r.status ≠ 404 →
      fetchGitHub r body = .error (.error ("GitHub API Error: " ++ r.statusText))) ∧
    (∀ e, fetchGitHub r body = .error e → e.name = "Error") := by
  refine ⟨?_, ?_, ?_, ?_⟩
  · intro h
    have hok : r.ok = false := by
      simp only [HttpResponse.ok, h]
      decide
    simp [fetchGitHub, hok, h]
  · intro h
    have hok : r.ok = false := by
      rcases h with h | h <;> · simp only [HttpResponse.ok, h]; decide
    rcases h with h | h <;> simp [fetchGitHub, hok, h]
  · intro hok h403 h429 h404
    simp [fetchGitHub, hok, h403, h429, h404]
  · intro e he
    unfold fetchGitHub at he
    split at he
    · exact absurd he (by simp)
    · split at he
      · cases he
        rfl
      · split at he <;> · cases he; rfl

/-- C2 (witness): the amended classification evaluated at a concrete 404
response. -/
theorem C2_amended_witness :
    fetchGitHub ⟨404, "Not Found"⟩ .null = .error (.error "User or resource not found.") :=
  (C2_amended_status_classification ⟨404, "Not Found"⟩ .null).1 rfl

/-! ### Claims about the aggregation pipeline -/

/-- C3 (confirmed): when the repository-list fetch returns an empty
collection, the aggregate passes through `fetchFullProfileData` unchanged in
shape and the submit handler fails with the dedicated empty-portfolio error
before the assessment step; the result does not depend on the assessment
function, so the assessment step is never invoked. -/
theorem C3_empty_portfolio (user : User) (stats : ContributionStats)
    (atob : String → String) (readmeOutcome : Nat → Except JsError ReadmeData)
    (assess assess' : User → List Repo → Except JsError Json) :
    handleAnalyze (.ok (fetchFullProfileData user [] stats atob readmeOutcome)) assess
      = .error (.error "This user has no public repositories to analyze.") ∧
    handleAnalyze (.ok (fetchFullProfileData user [] stats atob readmeOutcome)) assess
      = handleAnalyze (.ok (fetchFullProfileData user [] stats atob readmeOutcome)) assess' :=
  ⟨rfl, rfl⟩

/-! ### Claims about the contribution statistics -/

/-- C5 (confirmed): on a successfully fetched and decoded payload, the total
contribution count equals the sum of the values of the per-year total map and
is independent of the daily contribution series. -/
theorem C5_total_from_year_map (today : Int) (m : List (String × Nat))
    (c c' : List ContributionDay) :
    (fetchContributionStats today (.response true (.ok ⟨m, c⟩))).totalContributions
      = (m.map Prod.snd).sum ∧
    (fetchContributionStats today (.response true (.ok ⟨m, c⟩))).totalContributions
      = (fetchContributionStats today (.response true (.ok ⟨m, c'⟩))).totalContributions := by
  constructor
  · simp [fetchContributionStats, computeStats, List.sum_eq_foldl]
  · rfl

/-- C6 (confirmed): a thrown statistics fetch, a non-2xx statistics response,
and a body that fails to decode all yield the all-zero record instead of
failing the caller. -/
theorem C6_failure_defaults (today : Int) (b : Except String ContribPayload) (e : String) :
    fetchContributionStats today .fetchFailure = ⟨0, 0, 0⟩ ∧
    fetchContributionStats today (.response false b) = ⟨0, 0, 0⟩ ∧
    fetchContributionStats today (.response true (.error e)) = ⟨0, 0, 0⟩ :=
  ⟨rfl, rfl, rfl⟩

/-- C4 (confirmed): in the backward scan a zero-count entry dated today is
skipped without terminating the scan, while a zero on an earlier day
terminates it: with `d` as today, the series `[(d-1,1),(d,0)]` yields current
streak 1 and the series `[(d-2,1),(d-1,0),(d,0)]` yields current streak 0. -/
theorem C4_today_zero_skip (d : Int) (m : List (String × Nat)) :
    (fetchContributionStats d
        (.response true (.ok ⟨m, [⟨d - 1, 1⟩, ⟨d, 0⟩]⟩))).currentStreak = 1 ∧
    (fetchContributionStats d
        (.response true (.ok ⟨m, [⟨d - 2, 1⟩, ⟨d - 1, 0⟩, ⟨d, 0⟩]⟩))).currentStreak = 0 := by
  have hne1 : d - 1 ≠ d := by omega
  have hs1 : sortByDate [⟨d - 1, 1⟩, ⟨d, 0⟩] = [⟨d - 1, 1⟩, ⟨d, 0⟩] :=
    List.Sorted.insertionSort_eq (by simp [List.sorted_cons, dateLe])
  have hs2 : sortByDate [⟨d - 2, 1⟩, ⟨d - 1, 0⟩, ⟨d, 0⟩]
      = [⟨d - 2, 1⟩, ⟨d - 1, 0⟩, ⟨d, 0⟩] :=
    List.Sorted.insertionSort_eq (by simp [List.sorted_cons, dateLe]; omega)
  constructor
  · simp [fetchContributionStats, computeStats, hs1, currentStreakAux]
  · simp [fetchContributionStats, computeStats, hs2, currentStreakAux, hne1]

/-- Helper: the forward scan leaves the initial pair unchanged on an all-zero
series. -/
theorem foldl_longestStep_all_zero :
    ∀ l : List ContributionDay, (∀ x ∈ l, x.count = 0) →
      l.foldl longestStep (0, 0) = (0, 0)
  | [], _ => rfl
  | x :: xs, h => by
    have hx : x.count = 0 := h x (by simp)
    rw [List.foldl_cons, show longestStep (0, 0) x = (0, 0) from by simp [longestStep, hx]]
    exact foldl_longestStep_all_zero xs fun y hy => h y (List.mem_cons_of_mem _ hy)

/-- Helper: the longest streak of an all-zero series is zero. -/
theorem longestStreakOf_all_zero (l : List ContributionDay)
    (h : ∀ x ∈ l, x.count = 0) : longestStreakOf l = 0 := by
  unfold longestStreakOf longestScan
  rw [foldl_longestStep_all_zero l h]
  rfl

/-- Helper: the backward scan yields zero on an all-zero series. -/
theorem currentStreakAux_all_zero (today : Int) :
    ∀ l : List ContributionDay, (∀ x ∈ l, x.count = 0) →
      currentStreakAux today l = 0
  | [], _ => rfl
  | x :: xs, h => by
    have hx : x.count = 0 := h x (by simp)
    have htail := currentStreakAux_all_zero today xs fun y hy => h y (List.mem_cons_of_mem _ hy)
    rw [currentStreakAux, if_neg (by omega)]
    split
    · exact htail
    · rfl

/-- Helper: the forward scan adds the series length to the running streak on
an all-positive series. -/
theorem foldl_longestStep_all_pos (a : Nat) :
    ∀ (l : List ContributionDay) (b : Nat), (∀ x ∈ l, 0 < x.count) →
      l.foldl longestStep (a, b) = (a, b + l.length)
  | [], b, _ => by simp
  | x :: xs, b, h => by
    have hx : 0 < x.count := h x (by simp)
    rw [List.foldl_cons, show longestStep (a, b) x = (a, b + 1) from by simp [longestStep, hx]]
    rw [foldl_longestStep_all_pos a xs (b + 1) fun y hy => h y (List.mem_cons_of_mem _ hy)]
    simp
    omega

/-- Helper: the longest streak of an all-positive series is its length. -/
theorem longestStreakOf_all_pos (l : List ContributionDay)
    (h : ∀ x ∈ l, 0 < x.count) : longestStreakOf l = l.length := by
  unfold longestStreakOf longestScan
  rw [foldl_longestStep_all_pos 0 l 0 h]
  simp

/-- Helper: the backward scan counts the whole series when every count is
positive. -/
theorem currentStreakAux_all_pos (today : Int) :
    ∀ l : List ContributionDay, (∀ x ∈ l, 0 < x.count) →
      currentStreakAux today l = l.length
  | [], _ => rfl
  | x :: xs, h => by
    have hx : 0 < x.count := h x (by simp)
    rw [currentStreakAux, if_pos hx,
      currentStreakAux_all_pos today xs fun y hy => h y (List.mem_cons_of_mem _ hy)]
    simp

/-- C8 (confirmed): an all-zero contribution series (including the empty one)
yields longest streak 0 and current streak 0, and an all-positive series of
length N yields longest streak N and current streak N. -/
theorem C8_constant_series (today : Int) (m : List (String × Nat))
    (days : List ContributionDay) :
    ((∀ x ∈ days, x.count = 0) →
      (fetchContributionStats today (.response true (.ok ⟨m, days⟩))).longestStreak = 0 ∧
      (fetchContributionStats today (.response true (.ok ⟨m, days⟩))).currentStreak = 0) ∧
    ((∀ x ∈ days, 0 < x.count) →
      (fetchContributionStats today
          (.response true (.ok ⟨m, days⟩))).longestStreak = days.length ∧
      (fetchContributionStats today
          (.response true (.ok ⟨m, days⟩))).currentStreak = days.length) := by
  have hperm : (sortByDate days).Perm days := List.perm_insertionSort dateLe days
  constructor
  · intro h
    have hs : ∀ x ∈ sortByDate days, x.count = 0 := fun x hx => h x (hperm.mem_iff.mp hx)
    have hr : ∀ x ∈ (sortByDate days).reverse, x.count = 0 := fun x hx =>
      hs x (List.mem_reverse.mp hx)
    refine ⟨?_, ?_⟩
    · simp [fetchContributionStats, computeStats, longestStreakOf_all_zero _ hs]
    · simp [fetchContributionStats, computeStats, currentStreakAux_all_zero _ _ hr]
  · intro h
    have hs : ∀ x ∈ sortByDate days, 0 < x.count := fun x hx => h x (hperm.mem_iff.mp hx)
    have hr : ∀ x ∈ (sortByDate days).reverse, 0 < x.count := fun x hx =>
      hs x (List.mem_reverse.mp hx)
    have hlen : (sortByDate days).length = days.length := hperm.length_eq
    refine ⟨?_, ?_⟩
    · simp [fetchContributionStats, computeStats, longestStreakOf_all_pos _ hs, hlen]
    · simp [fetchContributionStats, computeStats, currentStreakAux_all_pos _ _ hr, hlen]

/-- C8 (witness): the constant-series facts evaluated on an all-zero
single-day series and an all-positive two-day series. -/
theorem C8_constant_series_witness :
    (fetchContributionStats 0 (.response true (.ok ⟨[], [⟨0, 0⟩]⟩))).longestStreak = 0 ∧
    (fetchContributionStats 0 (.response true (.ok ⟨[], [⟨0, 7⟩, ⟨1, 2⟩]⟩))).currentStreak = 2 :=
  ⟨((C8_constant_series 0 [] [⟨0, 0⟩]).1 (by decide)).1,
   ((C8_constant_series 0 [] [⟨0, 7⟩, ⟨1, 2⟩]).2 (by decide)).2⟩

/-- Helper: attaching READMEs never drops or adds repositories. -/
theorem attachReadmes_length (f : Nat → Option String) :
    ∀ (i : Nat) (repos : List Repo), (attachReadmes f i repos).length = repos.length
  | _, [] => rfl
  | i, _ :: rest => by
    simp [attachReadmes, attachReadmes_length f (i + 1) rest]

/-- Helper: pointwise description of the README-attachment map: the entry at
offset `j` (from starting index `i`) gets the README for index `i + j` when
`i + j < 3` and is passed through untouched otherwise. -/
theorem attachReadmes_get (f : Nat → Option String) :
    ∀ (i : Nat) (repos : List Repo) (j : Nat) (hj : j < repos.length)
      (hj' : j < (attachReadmes f i repos).length),
      (attachReadmes f i repos).get ⟨j, hj'⟩
        = if i + j < 3 then
            { repos.get ⟨j, hj⟩ with readmeContent := some (f (i + j)) }
          else
            repos.get ⟨j, hj⟩
  | _, [], _, hj, _ => absurd hj (by simp)
  | i, r :: rest, 0, hj, hj' => by
    simp [attachReadmes]
  | i, r :: rest, j + 1, hj, hj' => by
    have hr : j < rest.length := by simpa using hj
    have hr' : j < (attachReadmes f (i + 1) rest).length := by
      rw [attachReadmes_length]
      exact hr
    have harith : i + (j + 1) = (i + 1) + j := by omega
    rw [show (attachReadmes f i (r :: rest)).get ⟨j + 1, hj'⟩
          = (attachReadmes f (i + 1) rest).get ⟨j, hr'⟩ from rfl]
    rw [attachReadmes_get f (i + 1) rest j hr hr', harith]
    rfl

/-- Helper: truncation to 2000 characters is a bound on the string length. -/
theorem slice2000_length_le (s : String) : (slice2000 s).length ≤ 2000 := by
  show (s.data.take 2000).length ≤ 2000
  rw [List.length_take]
  exact min_le_left _ _

/-- C7 (confirmed): README attachment in the aggregation never loses
repositories; a failed README fetch for one of the first three repositories
attaches `null` to that repository only; repositories at index three and
beyond are passed through without a README field; and an attached README is
the base64-decoded, newline-stripped content truncated to at most 2000
characters. -/
theorem C7_readme_attachment (user : User) (repos : List Repo)
    (stats : ContributionStats) (atob : String → String)
    (out : Nat → Except JsError ReadmeData) :
    ((fetchFullProfileData user repos stats atob out).2.1).length = repos.length ∧
    (∀ (j : Nat) (hj : j < repos.length)
        (hj' : j < ((fetchFullProfileData user repos stats atob out).2.1).length)
        (e : JsError), j < 3 → out j = .error e →
      ((fetchFullProfileData user repos stats atob out).2.1).get ⟨j, hj'⟩
        = { repos.get ⟨j, hj⟩ with readmeContent := some none }) ∧
    (∀ (j : Nat) (hj : j < repos.length)
        (hj' : j < ((fetchFullProfileData user repos stats atob out).2.1).length),
      3 ≤ j →
      ((fetchFullProfileData user repos stats atob out).2.1).get ⟨j, hj'⟩
        = repos.get ⟨j, hj⟩) ∧
    (∀ (j : Nat) (hj : j < repos.length)
        (hj' : j < ((fetchFullProfileData user repos stats atob out).2.1).length)
        (d : ReadmeData), j < 3 → out j = .ok d →
        d.encoding = "base64" → d.content ≠ "" →
      ((fetchFullProfileData user repos stats atob out).2.1).get ⟨j, hj'⟩
        = { repos.get ⟨j, hj⟩ with
            readmeContent := some (some (slice2000 (atob (stripNewlines d.content)))) }) ∧
    (∀ s : String, (slice2000 s).length ≤ 2000) := by
  refine ⟨attachReadmes_length _ 0 repos, ?_, ?_, ?_, slice2000_length_le⟩
  · intro j hj hj' e hj3 hout
    have h := attachReadmes_get (fun i => getRepoReadme atob (out i)) 0 repos j hj
      (by rw [attachReadmes_length]; exact hj)
    rw [if_pos (show 0 + j < 3 by omega)] at h
    simp only [Nat.zero_add, hout] at h
    rw [show getRepoReadme atob (.error e) = none from rfl] at h
    exact h
  · intro j hj hj' hj3
    have h := attachReadmes_get (fun i => getRepoReadme atob (out i)) 0 repos j hj
      (by rw [attachReadmes_length]; exact hj)
    rw [if_neg (show ¬ 0 + j < 3 by omega)] at h
    exact h
  · intro j hj hj' d hj3 hout henc hcont
    have h := attachReadmes_get (fun i => getRepoReadme atob (out i)) 0 repos j hj
      (by rw [attachReadmes_length]; exact hj)
    rw [if_pos (show 0 + j < 3 by omega)] at h
    simp only [Nat.zero_add, hout] at h
    rw [show getRepoReadme atob (.ok d)
          = some (slice2000 (atob (stripNewlines d.content))) from by
        simp [getRepoReadme, henc, hcont]] at h
    exact h

/-- C7 (witness): the attachment facts evaluated on a four-repository list
whose second README fetch fails. -/
theorem C7_readme_attachment_witness :
    ((fetchFullProfileData ⟨"u"⟩ [⟨"a", none⟩, ⟨"b", none⟩, ⟨"c", none⟩, ⟨"d", none⟩]
          ⟨0, 0, 0⟩ id
          (fun i => if i = 1 then .error (.error "no readme") else .ok ⟨"QQ==", "base64"⟩)).2.1).get
        ⟨1, by decide⟩
      = ⟨"b", some none⟩ ∧
    ((fetchFullProfileData ⟨"u"⟩ [⟨"a", none⟩, ⟨"b", none⟩, ⟨"c", none⟩, ⟨"d", none⟩]
          ⟨0, 0, 0⟩ id
          (fun i => if i = 1 then .error (.error "no readme") else .ok ⟨"QQ==", "base64"⟩)).2.1).get
        ⟨3, by decide⟩
      = ⟨"d", none⟩ :=
  ⟨(C7_readme_attachment ⟨"u"⟩ [⟨"a", none⟩, ⟨"b", none⟩, ⟨"c", none⟩, ⟨"d", none⟩]
      ⟨0, 0, 0⟩ id _).2.1 1 (by decide) (by decide) (.error "no readme") (by decide) rfl,
   (C7_readme_attachment ⟨"u"⟩ [⟨"a", none⟩, ⟨"b", none⟩, ⟨"c", none⟩, ⟨"d", none⟩]
      ⟨0, 0, 0⟩ id _).2.2.1 3 (by decide) (by decide) (by decide)⟩

/-! ### Order facts used to relate the two streak scans -/

/-- Strict date order on contribution days. -/
def dateLt (a b : ContributionDay) : Prop :=
  a.date < b.date

instance : IsAntisymm ContributionDay dateLt :=
  ⟨fun _ _ h h' => absurd h' (lt_asymm h)⟩

/-- Length of the initial run of positive-count days. -/
def posPrefixLen (l : List ContributionDay) : Nat :=
  (l.takeWhile (fun d => 0 < d.count)).length

/-- Helper: on a series containing no entry dated today, the backward scan is
the length of the initial positive run. -/
theorem currentStreakAux_no_today (today : Int) :
    ∀ l : List ContributionDay, (∀ x ∈ l, x.date ≠ today) →
      currentStreakAux today l = posPrefixLen l
  | [], _ => rfl
  | x :: xs, h => by
    have hx : x.date ≠ today := h x (by simp)
    have ih := currentStreakAux_no_today today xs fun y hy => h y (List.mem_cons_of_mem _ hy)
    rcases Nat.eq_zero_or_pos x.count with h0 | hpos
    · rw [currentStreakAux, if_neg (by omega), if_neg hx]
      simp [posPrefixLen, List.takeWhile_cons, h0]
    · rw [currentStreakAux, if_pos hpos, ih]
      simp [posPrefixLen, List.takeWhile_cons, hpos]

/-- Helper: the second component of the forward scan is the length of the
trailing positive run of the series. -/
theorem longestScan_snd (l : List ContributionDay) :
    (longestScan l).2 = posPrefixLen l.reverse := by
  induction l using List.reverseRecOn with
  | nil => rfl
  | append_singleton l' d ih =>
    have hscan : longestScan (l' ++ [d]) = longestStep (longestScan l') d := by
      unfold longestScan
      rw [List.foldl_append]
      rfl
    rw [hscan, List.reverse_append]
    rcases Nat.eq_zero_or_pos d.count with h0 | hpos
    · simp [longestStep, h0, posPrefixLen, List.takeWhile_cons]
    · simp [longestStep, hpos, posPrefixLen, List.takeWhile_cons]
      exact ih

/-- Helper: on a series that is strictly ascending by date with no date past
today, the backward current-streak scan is bounded by the longest streak. -/
theorem currentStreak_le_longestStreak (today : Int) (s : List ContributionDay)
    (hstrict : s.Pairwise dateLt) (hle : ∀ x ∈ s, x.date ≤ today) :
    currentStreakAux today s.reverse ≤ longestStreakOf s := by
  rcases hr : s.reverse with _ | ⟨x, rest⟩
  · exact Nat.zero_le _
  · have hs_eq : s = rest.reverse ++ [x] := by
      rw [← List.reverse_reverse s, hr, List.reverse_cons]
    subst hs_eq
    have hlt : ∀ d ∈ rest, d.date < x.date := by
      rw [List.pairwise_append] at hstrict
      intro d hd
      exact hstrict.2.2 d (List.mem_reverse.mpr hd) x (by simp)
    have hxle : x.date ≤ today := hle x (by simp)
    have hrest_ne : ∀ d ∈ rest, d.date ≠ today := fun d hd =>
      ne_of_lt (lt_of_lt_of_le (hlt d hd) hxle)
    have hB : currentStreakAux today rest = posPrefixLen rest :=
      currentStreakAux_no_today today rest hrest_ne
    have hH : (longestScan rest.reverse).2 = posPrefixLen rest := by
      rw [longestScan_snd, List.reverse_reverse]
    have hscan : longestScan (rest.reverse ++ [x]) = longestStep (longestScan rest.reverse) x := by
      unfold longestScan
      rw [List.foldl_append]
      rfl
    unfold longestStreakOf
    rw [hscan]
    rcases Nat.eq_zero_or_pos x.count with hx0 | hxpos
    · rw [currentStreakAux, if_neg (by omega)]
      rw [show longestStep (longestScan rest.reverse) x
            = (max (longestScan rest.reverse).1 (longestScan rest.reverse).2, 0) from by
          simp [longestStep, hx0]]
      split
      · rw [hB, ← hH]
        exact le_trans (le_max_right _ _) (le_max_left _ _)
      · exact Nat.zero_le _
    · rw [currentStreakAux, if_pos hxpos, hB, ← hH]
      rw [show longestStep (longestScan rest.reverse) x
            = ((longestScan rest.reverse).1, (longestScan rest.reverse).2 + 1) from by
          simp [longestStep, hxpos]]
      exact le_max_right _ _

/-- Helper: on a series with pairwise-distinct dates, the defensive sort is
strictly ascending by date. -/
theorem sortByDate_pairwise_lt (l : List ContributionDay)
    (hnd : l.Pairwise (fun a b => a.date ≠ b.date)) :
    (sortByDate l).Pairwise dateLt := by
  have hs : (sortByDate l).Pairwise dateLe := List.sorted_insertionSort dateLe l
  have hperm : (sortByDate l).Perm l := List.perm_insertionSort dateLe l
  have hnd' : (sortByDate l).Pairwise (fun a b => a.date ≠ b.date) :=
    (List.Perm.pairwise_iff (fun h => Ne.symm h) hperm).mpr hnd
  exact (hs.and hnd').imp fun h => lt_of_le_of_ne h.1 h.2

/-- C9 (confirmed): on a series with pairwise-distinct dates none of which is
later than today, the computed current streak never exceeds the computed
longest streak, and all three output fields are non-negative. -/
theorem C9_streak_invariants (today : Int) (m : List (String × Nat))
    (days : List ContributionDay)
    (hnd : days.Pairwise (fun a b => a.date ≠ b.date))
    (hle : ∀ x ∈ days, x.date ≤ today) :
    (fetchContributionStats today (.response true (.ok ⟨m, days⟩))).currentStreak
      ≤ (fetchContributionStats today (.response true (.ok ⟨m, days⟩))).longestStreak ∧
    0 ≤ (fetchContributionStats today (.response true (.ok ⟨m, days⟩))).totalContributions ∧
    0 ≤ (fetchContributionStats today (.response true (.ok ⟨m, days⟩))).longestStreak ∧
    0 ≤ (fetchContributionStats today (.response true (.ok ⟨m, days⟩))).currentStreak := by
  refine ⟨?_, Nat.zero_le _, Nat.zero_le _, Nat.zero_le _⟩
  have hperm : (sortByDate days).Perm days := List.perm_insertionSort dateLe days
  exact currentStreak_le_longestStreak today (sortByDate days)
    (sortByDate_pairwise_lt days hnd)
    (fun x hx => hle x (hperm.mem_iff.mp hx))

/-- C9 (witness): the invariant evaluated on a concrete two-day series ending
in a zero-count current day. -/
theorem C9_streak_invariants_witness :
    (fetchContributionStats 2 (.response true (.ok ⟨[], [⟨1, 1⟩, ⟨2, 0⟩]⟩))).currentStreak
      ≤ (fetchContributionStats 2 (.response true (.ok ⟨[], [⟨1, 1⟩, ⟨2, 0⟩]⟩))).longestStreak :=
  (C9_streak_invariants 2 [] [⟨1, 1⟩, ⟨2, 0⟩] (by decide) (by decide)).1

/-- C10 (confirmed): two series that are permutations of each other with
pairwise-distinct dates produce identical contribution statistics: the
defensive sort maps both to the same strictly date-ascending list. -/
theorem C10_permutation_invariance (today : Int) (m : List (String × Nat))
    (l₁ l₂ : List ContributionDay) (hperm : l₁.Perm l₂)
    (hnd : l₁.Pairwise (fun a b => a.date ≠ b.date)) :
    fetchContributionStats today (.response true (.ok ⟨m, l₁⟩))
      = fetchContributionStats today (.response true (.ok ⟨m, l₂⟩)) := by
  have hnd₂ : l₂.Pairwise (fun a b => a.date ≠ b.date) :=
    (List.Perm.pairwise_iff (fun h => Ne.symm h) hperm).mp hnd
  have hp : (sortByDate l₁).Perm (sortByDate l₂) :=
    ((List.perm_insertionSort dateLe l₁).trans hperm).trans
      (List.perm_insertionSort dateLe l₂).symm
  have hsort : sortByDate l₁ = sortByDate l₂ :=
    List.eq_of_perm_of_sorted hp (sortByDate_pairwise_lt l₁ hnd) (sortByDate_pairwise_lt l₂ hnd₂)
  simp only [sortByDate] at hsort
  simp [fetchContributionStats, computeStats, sortByDate, hsort]

/-- C10 (witness): permutation invariance evaluated on a concrete two-day
series and its reversal. -/
theorem C10_permutation_invariance_witness :
    fetchContributionStats 9 (.response true (.ok ⟨[("2024", 3)], [⟨1, 2⟩, ⟨2, 0⟩]⟩))
      = fetchContributionStats 9 (.response true (.ok ⟨[("2024", 3)], [⟨2, 0⟩, ⟨1, 2⟩]⟩)) :=
  C10_permutation_invariance 9 [("2024", 3)] [⟨1, 2⟩, ⟨2, 0⟩] [⟨2, 0⟩, ⟨1, 2⟩]
    (by decide) (by decide)

end GitrepoAnalyzer
